import Mathlib

/-!
Verification of `src/public/sum_mm_fixed.py` (ThHanke/visgraph): a workflow
step that sums `qudt:QuantityValue` inputs of a `prov:Activity` in an RDF
graph, deriving deterministic identifiers from a truncated SHA-256 hash.

Shallow embedding conventions, stated once here:
* RDF terms are `Node` (IRI, blank node, numeric literal, string literal).
  Numeric literals (Python `float`) are modelled over `ℚ`; every claim at
  issue only involves exactly representable values.  A node is `litNum` when
  Python's `float()` accepts it and `litStr`/`uri`/`bnode` when `float()`
  raises (the code catches that exception).
* A `Graph` is the rdflib store: a duplicate-free list of triples; `add` is
  set insertion (appending at the end), `remove` deletes a triple, the
  pattern queries `triples`, `subjects` and `value` enumerate in store
  order, `value` returning the first match like rdflib's `Graph.value`.
  Datatype tags (`xsd:string`, `xsd:decimal`) carry no information beyond
  the literal kind and are elided.
* `hashlib.sha256(...).hexdigest()[:16]` is external library code; the
  development is parametric in it (`H : String → String`), since no claim
  depends on the hash function's internals — only on the pre-hash string.
* `BNode()` allocates a fresh blank-node label; the allocator state is
  passed explicitly as a `Nat` id.
* Turtle parsing and serialization are rdflib library calls (out of scope
  per the spec): the parse outcome is an `Option Graph` argument (`none`
  models the raised parse exception, with the exception text as a string),
  and the serializer is a parameter `S : Graph → String`.
* Namespace `bind` calls only affect serialization prefixes, not the triple
  store, so they are not part of the graph state.
-/

/-- An RDF term: IRI reference, blank node, or literal (numeric / string). -/
inductive Node where
  | uri (s : String)
  | bnode (n : Nat)
  | litNum (q : ℚ)
  | litStr (s : String)
deriving DecidableEq, Repr

/-- An RDF statement (subject, predicate, object). -/
abbrev Triple := Node × Node × Node

/-- The rdflib graph store: a duplicate-free list of triples in store order. -/
abbrev Graph := List Triple

/-- `g.add(t)`: set insertion (rdflib stores are sets of triples). -/
def Graph.addT (g : Graph) (t : Triple) : Graph :=
  if t ∈ g then g else g ++ [t]

/-- `g.remove(t)`: delete the statement `t` from the store. -/
def Graph.removeT (g : Graph) (t : Triple) : Graph :=
  g.filter (fun u => u ≠ t)

/-- `g.triples((s, None, None))`: statements with subject `s`, store order. -/
def Graph.triplesS (g : Graph) (s : Node) : List Triple :=
  g.filter (fun t => t.1 = s)

/-- `g.triples((None, None, o))`: statements with object `o`, store order. -/
def Graph.triplesO (g : Graph) (o : Node) : List Triple :=
  g.filter (fun t => t.2.2 = o)

/-- `g.subjects(p, o)`: subjects of all statements matching `(?, p, o)`. -/
def Graph.subjects (g : Graph) (p o : Node) : List Node :=
  (g.filter (fun t => t.2.1 = p ∧ t.2.2 = o)).map (fun t => t.1)

/-- `g.value(s, p)`: the object of the first statement matching `(s, p, ?)`,
or `None` when there is none. -/
def Graph.value (g : Graph) (s p : Node) : Option Node :=
  (g.find? (fun t => t.1 = s ∧ t.2.1 = p)).map (fun t => t.2.2)

/-- `str(node)` as used on discovered inputs: the IRI text of a `URIRef`,
the label of a `BNode`, the lexical form of a literal. -/
def nodeToStr : Node → String
  | .uri s => s
  | .bnode n => Nat.repr n
  | .litNum q => q.num.repr
  | .litStr s => s

/-- `float(node)` as used on `qudt:numericValue` objects: succeeds exactly
on numeric literals, raises (`None` here) on everything `float()` rejects. -/
def toRat : Node → Option ℚ
  | .litNum q => some q
  | _ => none

/- Vocabulary constants (the namespace IRIs of the source file). -/

/-- `RDF.type`. -/
def rdf_type : Node := .uri "http://www.w3.org/1999/02/22-rdf-syntax-ns#type"

/-- `RDF.value`. -/
def rdf_value : Node := .uri "http://www.w3.org/1999/02/22-rdf-syntax-ns#value"

/-- `QUDT.QuantityValue`. -/
def qudt_QuantityValue : Node := .uri "http://qudt.org/schema/qudt/QuantityValue"

/-- `QUDT.numericValue`. -/
def qudt_numericValue : Node := .uri "http://qudt.org/schema/qudt/numericValue"

/-- `QUDT.unit`. -/
def qudt_unit : Node := .uri "http://qudt.org/schema/qudt/unit"

/-- `UNIT.MilliM`, the hard-coded default unit. -/
def unit_MilliM : Node := .uri "http://qudt.org/vocab/unit/MilliM"

/-- `PROV.wasGeneratedBy`. -/
def prov_wasGeneratedBy : Node := .uri "http://www.w3.org/ns/prov#wasGeneratedBy"

/-- `PROV.wasDerivedFrom`. -/
def prov_wasDerivedFrom : Node := .uri "http://www.w3.org/ns/prov#wasDerivedFrom"

/-- `OA.Annotation` (the web-annotation class). -/
def oa_AnnCls : Node := .uri "http://www.w3.org/ns/oa#Annotation"

/-- `OA.motivatedBy`. -/
def oa_motivatedBy : Node := .uri "http://www.w3.org/ns/oa#motivatedBy"

/-- `OA.hasBody`. -/
def oa_hasBody : Node := .uri "http://www.w3.org/ns/oa#hasBody"

/-- `OA.hasTarget`. -/
def oa_hasTarget : Node := .uri "http://www.w3.org/ns/oa#hasTarget"

/-- `OA.TextualBody`. -/
def oa_TextualBody : Node := .uri "http://www.w3.org/ns/oa#TextualBody"

/-- `EX.errorReporting`. -/
def ex_errorReporting : Node := .uri "https://github.com/ThHanke/PyodideSemanticWorkflow/errorReporting"

/-- `EX.errorCode`. -/
def ex_errorCode : Node := .uri "https://github.com/ThHanke/PyodideSemanticWorkflow/errorCode"

/-- `BFO.is_input_of`. -/
def bfo_is_input_of : Node := .uri "https://example.org/bfo/is_input_of"

/-- Code-point lexicographic comparison of character lists; this is the
order Python's `sorted` uses on strings (comparison by code points). -/
def lexLe : List Char → List Char → Bool
  | [], _ => true
  | _ :: _, [] => false
  | a :: as, b :: bs => if a = b then lexLe as bs else decide (a.toNat < b.toNat)

/-- Python string `<=`: code-point lexicographic order. -/
def strLe (a b : String) : Bool := lexLe a.data b.data

/-- `sorted(...)` on a list of strings. -/
def sortedStrings (l : List String) : List String :=
  l.insertionSort (fun a b => strLe a b = true)

/-- The pre-hash string of `create_execution_hash`:
`str(activity_iri) + ''.join(sorted(input_iris))`. -/
def combined_string (activity_iri : String) (input_iris : List String) : String :=
  activity_iri ++ String.join (sortedStrings input_iris)

/-- `create_execution_hash(activity_iri, *input_iris)`, parametric in the
external `sha256 → hexdigest[:16]` function `H`. -/
def create_execution_hash (H : String → String) (activity_iri : String)
    (input_iris : List String) : String :=
  H (combined_string activity_iri input_iris)

/-- `create_deterministic_iri(prefix, execution_hash)` = `#{prefix}_{hash}`. -/
def create_deterministic_iri (pfx : String) (execution_hash : String) : Node :=
  .uri ("#" ++ pfx ++ "_" ++ execution_hash)

/-- `cleanup_previous_result(g, result_iri)`: collects the statements with
`result_iri` as subject, then those with it as object, removes each
collected statement, and returns (new graph, `len(triples_to_remove)`). -/
def cleanup_previous_result (g : Graph) (result_iri : Node) : Graph × Nat :=
  let triples_to_remove := g.triplesS result_iri ++ g.triplesO result_iri
  (triples_to_remove.foldl Graph.removeT g, triples_to_remove.length)

/-- `_add_error(g, activity, message, code, execution_hash)`; `bnodeId` is
the fresh label the `BNode()` call allocates for the body. -/
def _add_error (g : Graph) (activity : Option Node) (message : String)
    (code : Option String) (execution_hash : String) (bnodeId : Nat) : Graph :=
  let ann_iri := create_deterministic_iri "errorAnn" execution_hash
  let body := Node.bnode bnodeId
  let g := g.addT (ann_iri, rdf_type, oa_AnnCls)
  let g := g.addT (ann_iri, oa_motivatedBy, ex_errorReporting)
  let g := g.addT (ann_iri, oa_hasBody, body)
  let g := match activity with
    | some a => (g.addT (ann_iri, oa_hasTarget, a)).addT (ann_iri, prov_wasGeneratedBy, a)
    | none => g
  let g := g.addT (body, rdf_type, oa_TextualBody)
  let g := g.addT (body, rdf_value, Node.litStr message)
  match code with
  | some c => g.addT (body, ex_errorCode, Node.litStr c)
  | none => g

/-- The input comprehension of `run`: subjects of `bfo:is_input_of activity`
that are typed `qudt:QuantityValue` in `g`. -/
def resolveInputs (g : Graph) (activity : Node) : List Node :=
  (g.subjects bfo_is_input_of activity).filter
    (fun qv => (qv, rdf_type, qudt_QuantityValue) ∈ g)

/-- Outcome of the `for qv in inputs` validation loop. -/
inductive ReadErr where
  | missingNum (qv : Node)
  | nonNum (qv : Node) (num : Node)
deriving DecidableEq, Repr

/-- `units.add(u)`: Python `set` insertion, modelled insertion-ordered. -/
def addUnit (units : List Node) (u : Node) : List Node :=
  if u ∈ units then units else units ++ [u]

/-- The `for qv in inputs` loop of `run`: reads `qudt:numericValue` and
`qudt:unit` of each input, aborting at the first missing or non-numeric
value, and accumulating `values` and the `units` set. -/
def readLoop (g : Graph) : List Node → List ℚ → List Node →
    Except ReadErr (List ℚ × List Node)
  | [], values, units => .ok (values, units)
  | qv :: rest, values, units =>
    match g.value qv qudt_numericValue with
    | none => .error (.missingNum qv)
    | some num =>
      match toRat num with
      | none => .error (.nonNum qv num)
      | some v =>
        let units := match g.value qv qudt_unit with
          | some u => addUnit units u
          | none => units
        readLoop g rest (values ++ [v]) units

/-- Which `return` statement of `run` produced the graph. -/
inductive RunExit where
  | parseError
  | inputTooFew
  | missingNumericValue
  | nonNumericValue
  | unitMismatch
  | success
deriving DecidableEq, Repr

/-- `", ".join(str(u) for u in units)` over the modelled unit set. -/
def joinUnits : List Node → String
  | [] => ""
  | [u] => nodeToStr u
  | u :: rest => nodeToStr u ++ ", " ++ joinUnits rest

/-- The body of `run` after the `g.parse` try/except: `parsed` is the parse
outcome (`none` = the parse raised, with exception text `parseErrMsg`), and
the returned graph is the one `run` serializes.  The `RunExit` component
records which `return` statement was taken. -/
def runCore (H : String → String) (parsed : Option Graph) (activity_iri : String)
    (parseErrMsg : String) (bnodeId : Nat) : RunExit × Graph :=
  match parsed with
  | none =>
    (.parseError,
      _add_error [] none ("Failed to parse input graph: " ++ parseErrMsg)
        (some "PARSE_ERROR") "unknown" bnodeId)
  | some g =>
    let activity := Node.uri activity_iri
    let inputs := resolveInputs g activity
    let execution_hash := create_execution_hash H activity_iri (inputs.map nodeToStr)
    if inputs.length < 2 then
      (.inputTooFew,
        _add_error g (some activity)
          ("Expected at least two qudt:QuantityValue inputs linked via bfo:is_input_of. Found "
            ++ Nat.repr inputs.length)
          (some "INPUT_TOO_FEW") execution_hash bnodeId)
    else
      match readLoop g inputs [] [] with
      | .error (.missingNum qv) =>
        (.missingNumericValue,
          _add_error g (some activity)
            ("Input " ++ nodeToStr qv ++ " has no qudt:numericValue")
            (some "MISSING_NUMERIC_VALUE") execution_hash bnodeId)
      | .error (.nonNum qv num) =>
        (.nonNumericValue,
          _add_error g (some activity)
            ("Input " ++ nodeToStr qv ++ " has non-numeric value " ++ nodeToStr num)
            (some "NON_NUMERIC_VALUE") execution_hash bnodeId)
      | .ok (values, units) =>
        if 1 < units.length then
          (.unitMismatch,
            _add_error g (some activity)
              ("Inputs have different units: " ++ joinUnits units)
              (some "UNIT_MISMATCH") execution_hash bnodeId)
        else
          let unit_iri := match units with
            | u :: _ => u
            | [] => unit_MilliM
          let total := values.foldl (· + ·) 0
          let result_qv := create_deterministic_iri "sumResult" execution_hash
          let g := (cleanup_previous_result g result_qv).1
          let g := g.addT (result_qv, rdf_type, qudt_QuantityValue)
          let g := g.addT (result_qv, qudt_numericValue, Node.litNum total)
          let g := g.addT (result_qv, qudt_unit, unit_iri)
          let g := g.addT (result_qv, prov_wasGeneratedBy, activity)
          let g := inputs.foldl (fun g qv => g.addT (result_qv, prov_wasDerivedFrom, qv)) g
          (.success, g)

/-- `run(input_turtle, activity_iri)`: serializes the graph `runCore`
produced, with the external Turtle serializer as parameter `S`. -/
def run (H : String → String) (S : Graph → String) (parsed : Option Graph)
    (activity_iri : String) (parseErrMsg : String) (bnodeId : Nat) : String :=
  S (runCore H parsed activity_iri parseErrMsg bnodeId).2

/- Concrete fixtures used to instantiate the theorems below. -/

/-- A sample activity node `A`. -/
def exActivity : Node := .uri "A"

/-- A sample input node `v1`. -/
def exInput1 : Node := .uri "v1"

/-- A sample input node `v2`. -/
def exInput2 : Node := .uri "v2"

/-- A graph with a single qualifying input of activity `A`. -/
def exGraphOne : Graph :=
  [(exInput1, bfo_is_input_of, exActivity),
   (exInput1, rdf_type, qudt_QuantityValue),
   (exInput1, qudt_numericValue, .litNum 2),
   (exInput1, qudt_unit, unit_MilliM)]

/-- A graph with two qualifying integer-valued inputs (2 and 4, both MilliM). -/
def exGraphTwo : Graph :=
  [(exInput1, bfo_is_input_of, exActivity),
   (exInput1, rdf_type, qudt_QuantityValue),
   (exInput1, qudt_numericValue, .litNum 2),
   (exInput1, qudt_unit, unit_MilliM),
   (exInput2, bfo_is_input_of, exActivity),
   (exInput2, rdf_type, qudt_QuantityValue),
   (exInput2, qudt_numericValue, .litNum 4),
   (exInput2, qudt_unit, unit_MilliM)]

/-- The rational 5/2, in normal form (value 2.5 of the spec's example). -/
def rat25 : ℚ := Rat.mk' 5 2 (by decide) (by decide)

/-- The rational 7/2, in normal form (value 3.5 of the spec's example). -/
def rat35 : ℚ := Rat.mk' 7 2 (by decide) (by decide)

/-- The spec's worked example: inputs 2.5 and 3.5, both with unit MilliM. -/
def exGraphHalves : Graph :=
  [(exInput1, bfo_is_input_of, exActivity),
   (exInput1, rdf_type, qudt_QuantityValue),
   (exInput1, qudt_numericValue, .litNum rat25),
   (exInput1, qudt_unit, unit_MilliM),
   (exInput2, bfo_is_input_of, exActivity),
   (exInput2, rdf_type, qudt_QuantityValue),
   (exInput2, qudt_numericValue, .litNum rat35),
   (exInput2, qudt_unit, unit_MilliM)]

/-- Two-input graph with mismatching units (MilliM and a second unit `U2`). -/
def exGraphMismatch : Graph :=
  [(exInput1, bfo_is_input_of, exActivity),
   (exInput1, rdf_type, qudt_QuantityValue),
   (exInput1, qudt_numericValue, .litNum 2),
   (exInput1, qudt_unit, unit_MilliM),
   (exInput2, bfo_is_input_of, exActivity),
   (exInput2, rdf_type, qudt_QuantityValue),
   (exInput2, qudt_numericValue, .litNum 4),
   (exInput2, qudt_unit, .uri "http://qudt.org/vocab/unit/U2")]

/-- Two-input graph where no input declares a unit. -/
def exGraphNoUnit : Graph :=
  [(exInput1, bfo_is_input_of, exActivity),
   (exInput1, rdf_type, qudt_QuantityValue),
   (exInput1, qudt_numericValue, .litNum 2),
   (exInput2, bfo_is_input_of, exActivity),
   (exInput2, rdf_type, qudt_QuantityValue),
   (exInput2, qudt_numericValue, .litNum 4)]

/-! ## Basic graph lemmas -/

theorem mem_addT {g : Graph} {t u : Triple} : t ∈ g.addT u ↔ t ∈ g ∨ t = u := by
  unfold Graph.addT
  by_cases h : u ∈ g
  · rw [if_pos h]
    constructor
    · exact Or.inl
    · rintro (ht | rfl)
      · exact ht
      · exact h
  · rw [if_neg h]
    simp [List.mem_append]

theorem mem_foldl_removeT {L : List Triple} {g : Graph} {t : Triple} :
    t ∈ L.foldl Graph.removeT g ↔ t ∈ g ∧ t ∉ L := by
  induction L generalizing g with
  | nil => simp
  | cons u L ih =>
    simp only [List.foldl_cons, ih, Graph.removeT, List.mem_filter, List.mem_cons,
      decide_eq_true_eq, ne_eq]
    tauto

theorem mem_foldl_addT_derived {r : Node} {l : List Node} {g : Graph} {t : Triple} :
    t ∈ l.foldl (fun g qv => g.addT (r, prov_wasDerivedFrom, qv)) g ↔
      t ∈ g ∨ ∃ qv ∈ l, t = (r, prov_wasDerivedFrom, qv) := by
  induction l generalizing g with
  | nil => simp
  | cons x l ih =>
    simp only [List.foldl_cons, ih, mem_addT, List.mem_cons]
    constructor
    · rintro ((h | rfl) | ⟨qv, hqv, rfl⟩)
      · exact Or.inl h
      · exact Or.inr ⟨x, Or.inl rfl, rfl⟩
      · exact Or.inr ⟨qv, Or.inr hqv, rfl⟩
    · rintro (h | ⟨qv, (rfl | hqv), rfl⟩)
      · exact Or.inl (Or.inl h)
      · exact Or.inl (Or.inr rfl)
      · exact Or.inr ⟨qv, hqv, rfl⟩

/-! ## Lemmas about `_add_error` -/

theorem add_error_mono {g : Graph} {act : Option Node} {msg : String}
    {code : Option String} {h : String} {b : Nat} {t : Triple} (ht : t ∈ g) :
    t ∈ _add_error g act msg code h b := by
  unfold _add_error
  cases act <;> cases code <;> simp only [mem_addT] <;> tauto

theorem add_error_subset {g : Graph} {act : Option Node} {msg : String}
    {code : Option String} {h : String} {b : Nat} {t : Triple}
    (ht : t ∈ _add_error g act msg code h b) :
    t ∈ g ∨ t.1 = create_deterministic_iri "errorAnn" h ∨ t.1 = Node.bnode b := by
  unfold _add_error at ht
  cases act with
  | none =>
    cases code with
    | none =>
      simp only [mem_addT] at ht
      rcases ht with ((((h1 | rfl) | rfl) | rfl) | rfl) | rfl <;>
        first | exact Or.inl h1 | simp
    | some c =>
      simp only [mem_addT] at ht
      rcases ht with (((((h1 | rfl) | rfl) | rfl) | rfl) | rfl) | rfl <;>
        first | exact Or.inl h1 | simp
  | some a =>
    cases code with
    | none =>
      simp only [mem_addT] at ht
      rcases ht with ((((((h1 | rfl) | rfl) | rfl) | rfl) | rfl) | rfl) | rfl <;>
        first | exact Or.inl h1 | simp
    | some c =>
      simp only [mem_addT] at ht
      rcases ht with (((((((h1 | rfl) | rfl) | rfl) | rfl) | rfl) | rfl) | rfl) | rfl <;>
        first | exact Or.inl h1 | simp

theorem add_error_ann_mem {g : Graph} {act : Option Node} {msg : String}
    {code : Option String} {h : String} {b : Nat} :
    (create_deterministic_iri "errorAnn" h, rdf_type, oa_AnnCls) ∈
      _add_error g act msg code h b := by
  unfold _add_error
  cases act <;> cases code <;> simp [mem_addT]

theorem add_error_hasBody_mem {g : Graph} {act : Option Node} {msg : String}
    {code : Option String} {h : String} {b : Nat} :
    (create_deterministic_iri "errorAnn" h, oa_hasBody, Node.bnode b) ∈
      _add_error g act msg code h b := by
  unfold _add_error
  cases act <;> cases code <;> simp [mem_addT]

theorem add_error_code_mem {g : Graph} {act : Option Node} {msg : String}
    {c : String} {h : String} {b : Nat} :
    (Node.bnode b, ex_errorCode, Node.litStr c) ∈
      _add_error g act msg (some c) h b := by
  unfold _add_error
  cases act <;> simp [mem_addT]

/-! ## Lemmas about `cleanup_previous_result` -/

theorem cleanup_mem {g : Graph} {r : Node} {t : Triple} :
    t ∈ (cleanup_previous_result g r).1 ↔ t ∈ g ∧ ¬(t.1 = r ∨ t.2.2 = r) := by
  unfold cleanup_previous_result
  simp only [mem_foldl_removeT, Graph.triplesS, Graph.triplesO, List.mem_filter,
    List.mem_append, decide_eq_true_eq]
  tauto

theorem cleanup_count {g : Graph} {r : Node} :
    (cleanup_previous_result g r).2 = (g.triplesS r).length + (g.triplesO r).length := by
  simp [cleanup_previous_result]

/-! ## The string order used by `sorted` -/

theorem charToNat_inj {a b : Char} (h : a.toNat = b.toNat) : a = b := by
  apply Char.eq_of_val_eq
  apply UInt32.eq_of_toBitVec_eq
  unfold Char.toNat at h
  unfold UInt32.toNat at h
  exact BitVec.eq_of_toNat_eq h

theorem lexLe_total : ∀ as bs : List Char, lexLe as bs = true ∨ lexLe bs as = true
  | [], _ => Or.inl rfl
  | _ :: _, [] => Or.inr rfl
  | a :: as, b :: bs => by
    by_cases hab : a = b
    · subst hab
      simp only [lexLe, if_pos rfl]
      exact lexLe_total as bs
    · simp only [lexLe, if_neg hab, if_neg (Ne.symm hab), decide_eq_true_eq]
      rcases Nat.lt_or_ge a.toNat b.toNat with h | h
      · exact Or.inl h
      · refine Or.inr (Nat.lt_of_le_of_ne h ?_)
        exact fun he => hab (charToNat_inj he.symm)

theorem lexLe_trans : ∀ as bs cs : List Char,
    lexLe as bs = true → lexLe bs cs = true → lexLe as cs = true
  | [], _, _, _, _ => rfl
  | _ :: _, [], _, h1, _ => by simp [lexLe] at h1
  | _ :: _, _ :: _, [], _, h2 => by simp [lexLe] at h2
  | a :: as, b :: bs, c :: cs, h1, h2 => by
    by_cases hab : a = b
    · subst hab
      simp only [lexLe, if_pos rfl] at h1
      by_cases hac : a = c
      · subst hac
        simp only [lexLe, if_pos rfl] at h2 ⊢
        exact lexLe_trans as bs cs h1 h2
      · simp only [lexLe, if_neg hac] at h2 ⊢
        exact h2
    · simp only [lexLe, if_neg hab, decide_eq_true_eq] at h1
      by_cases hbc : b = c
      · subst hbc
        simp only [lexLe, if_neg hab, decide_eq_true_eq]
        exact h1
      · simp only [lexLe, if_neg hbc, decide_eq_true_eq] at h2
        have hlt : a.toNat < c.toNat := Nat.lt_trans h1 h2
        have hac : a ≠ c := fun he => Nat.lt_irrefl _ (he ▸ hlt)
        simp only [lexLe, if_neg hac, decide_eq_true_eq]
        exact hlt

theorem lexLe_antisymm : ∀ as bs : List Char,
    lexLe as bs = true → lexLe bs as = true → as = bs
  | [], [], _, _ => rfl
  | [], _ :: _, _, h2 => by simp [lexLe] at h2
  | _ :: _, [], h1, _ => by simp [lexLe] at h1
  | a :: as, b :: bs, h1, h2 => by
    by_cases hab : a = b
    · subst hab
      simp only [lexLe, if_pos rfl] at h1 h2
      rw [lexLe_antisymm as bs h1 h2]
    · exfalso
      simp only [lexLe, if_neg hab, if_neg (Ne.symm hab), decide_eq_true_eq] at h1 h2
      exact Nat.lt_asymm h1 h2

theorem strLe_total (a b : String) : strLe a b = true ∨ strLe b a = true :=
  lexLe_total a.data b.data

theorem strLe_trans {a b c : String} (h1 : strLe a b = true) (h2 : strLe b c = true) :
    strLe a c = true :=
  lexLe_trans a.data b.data c.data h1 h2

theorem strLe_antisymm {a b : String} (h1 : strLe a b = true) (h2 : strLe b a = true) :
    a = b :=
  String.ext (lexLe_antisymm a.data b.data h1 h2)

theorem sortedStrings_perm (l : List String) : (sortedStrings l).Perm l :=
  List.perm_insertionSort _ l

theorem sortedStrings_eq_of_perm {xs ys : List String} (h : xs.Perm ys) :
    sortedStrings xs = sortedStrings ys := by
  haveI ht : IsTotal String (fun a b => strLe a b = true) := ⟨strLe_total⟩
  haveI htr : IsTrans String (fun a b => strLe a b = true) :=
    ⟨fun _ _ _ => strLe_trans⟩
  haveI ha : IsAntisymm String (fun a b => strLe a b = true) :=
    ⟨fun _ _ => strLe_antisymm⟩
  exact @List.eq_of_perm_of_sorted String (fun a b => strLe a b = true) ha _ _
    ((List.perm_insertionSort _ xs).trans (h.trans (List.perm_insertionSort _ ys).symm))
    (List.sorted_insertionSort _ xs) (List.sorted_insertionSort _ ys)

/-! ## The pre-hash combined string -/

theorem foldl_append_data : ∀ (l : List String) (a : String),
    (l.foldl (· ++ ·) a).data = a.data ++ (l.map String.data).flatten
  | [], a => by simp
  | s :: l, a => by
    simp only [List.foldl_cons, foldl_append_data l (a ++ s), String.data_append,
      List.map_cons, List.flatten_cons, List.append_assoc]

theorem String_join_data (l : List String) :
    (String.join l).data = (l.map String.data).flatten := by
  have h := foldl_append_data l ""
  simpa [String.join] using h

theorem join_inj_of_uniform_len {L : Nat} (hL : 0 < L) :
    ∀ l1 l2 : List (List Char), (∀ x ∈ l1, x.length = L) → (∀ x ∈ l2, x.length = L) →
      l1.flatten = l2.flatten → l1 = l2
  | [], [], _, _, _ => rfl
  | [], y :: t2, _, h2, hj => by
    exfalso
    simp only [List.flatten_cons, List.flatten_nil] at hj
    have hy : y.length = L := h2 y (by simp)
    cases y with
    | nil => simp at hy; omega
    | cons a as => simp at hj
  | x :: t1, [], h1, _, hj => by
    exfalso
    simp only [List.flatten_cons, List.flatten_nil] at hj
    have hx : x.length = L := h1 x (by simp)
    cases x with
    | nil => simp at hx; omega
    | cons a as => simp at hj
  | x :: t1, y :: t2, h1, h2, hj => by
    simp only [List.flatten_cons] at hj
    have hx : x.length = L := h1 x (by simp)
    have hy : y.length = L := h2 y (by simp)
    obtain ⟨hxy, hj2⟩ := List.append_inj hj (by rw [hx, hy])
    rw [hxy, join_inj_of_uniform_len hL t1 t2
      (fun z hz => h1 z (by simp [hz])) (fun z hz => h2 z (by simp [hz])) hj2]

theorem combined_string_inj {L : Nat} (hL : 0 < L) {a1 a2 : String}
    (hlen : a1.length = a2.length) {xs1 xs2 : List String}
    (h1 : ∀ x ∈ xs1, x.length = L) (h2 : ∀ x ∈ xs2, x.length = L)
    (heq : combined_string a1 xs1 = combined_string a2 xs2) :
    a1 = a2 ∧ ∀ x, x ∈ xs1 ↔ x ∈ xs2 := by
  unfold combined_string at heq
  have hdata := congrArg String.data heq
  rw [String.data_append, String.data_append, String_join_data, String_join_data] at hdata
  have hlen' : a1.data.length = a2.data.length := hlen
  obtain ⟨ha, hj⟩ := List.append_inj hdata hlen'
  refine ⟨String.ext ha, ?_⟩
  have hs1 : ∀ x ∈ (sortedStrings xs1).map String.data, x.length = L := by
    intro x hx
    obtain ⟨s, hs, rfl⟩ := List.mem_map.mp hx
    exact h1 s ((sortedStrings_perm xs1).mem_iff.mp hs)
  have hs2 : ∀ x ∈ (sortedStrings xs2).map String.data, x.length = L := by
    intro x hx
    obtain ⟨s, hs, rfl⟩ := List.mem_map.mp hx
    exact h2 s ((sortedStrings_perm xs2).mem_iff.mp hs)
  have hmap := join_inj_of_uniform_len hL _ _ hs1 hs2 hj
  have hinj : Function.Injective String.data := fun _ _ hd => String.ext hd
  have hsorted : sortedStrings xs1 = sortedStrings xs2 :=
    List.map_injective_iff.mpr hinj hmap
  intro x
  rw [← (sortedStrings_perm xs1).mem_iff, hsorted, (sortedStrings_perm xs2).mem_iff]

/-! ## Derived-identifier facts -/

theorem sumResult_ne_errorAnn (h : String) :
    create_deterministic_iri "sumResult" h ≠ create_deterministic_iri "errorAnn" h := by
  intro he
  have hs : "#" ++ "sumResult" ++ "_" ++ h = "#" ++ "errorAnn" ++ "_" ++ h :=
    Node.uri.inj he
  have hd := congrArg String.data hs
  simp only [String.data_append] at hd
  have hpre := List.append_cancel_right hd
  exact absurd hpre (by decide)

theorem cdi_ne_bnode (pfx h : String) (b : Nat) :
    create_deterministic_iri pfx h ≠ Node.bnode b := by
  simp [create_deterministic_iri]

/-! ## Branch lemmas for `runCore` -/

theorem runCore_parse_failed (H : String → String) (act msg : String) (b : Nat) :
    runCore H none act msg b =
      (.parseError,
        _add_error [] none ("Failed to parse input graph: " ++ msg)
          (some "PARSE_ERROR") "unknown" b) := rfl

theorem runCore_too_few (H : String → String) {g : Graph} {act msg : String} {b : Nat}
    (h2 : (resolveInputs g (Node.uri act)).length < 2) :
    runCore H (some g) act msg b =
      (.inputTooFew,
        _add_error g (some (Node.uri act))
          ("Expected at least two qudt:QuantityValue inputs linked via bfo:is_input_of. Found "
            ++ Nat.repr (resolveInputs g (Node.uri act)).length)
          (some "INPUT_TOO_FEW")
          (create_execution_hash H act ((resolveInputs g (Node.uri act)).map nodeToStr)) b) := by
  simp only [runCore]
  rw [if_pos h2]

theorem runCore_missing (H : String → String) {g : Graph} {act msg : String} {b : Nat}
    {qv : Node} (h2 : ¬ (resolveInputs g (Node.uri act)).length < 2)
    (hr : readLoop g (resolveInputs g (Node.uri act)) [] [] = .error (.missingNum qv)) :
    runCore H (some g) act msg b =
      (.missingNumericValue,
        _add_error g (some (Node.uri act))
          ("Input " ++ nodeToStr qv ++ " has no qudt:numericValue")
          (some "MISSING_NUMERIC_VALUE")
          (create_execution_hash H act ((resolveInputs g (Node.uri act)).map nodeToStr)) b) := by
  simp only [runCore]
  rw [if_neg h2, hr]

theorem runCore_nonnum (H : String → String) {g : Graph} {act msg : String} {b : Nat}
    {qv num : Node} (h2 : ¬ (resolveInputs g (Node.uri act)).length < 2)
    (hr : readLoop g (resolveInputs g (Node.uri act)) [] [] = .error (.nonNum qv num)) :
    runCore H (some g) act msg b =
      (.nonNumericValue,
        _add_error g (some (Node.uri act))
          ("Input " ++ nodeToStr qv ++ " has non-numeric value " ++ nodeToStr num)
          (some "NON_NUMERIC_VALUE")
          (create_execution_hash H act ((resolveInputs g (Node.uri act)).map nodeToStr)) b) := by
  simp only [runCore]
  rw [if_neg h2, hr]

theorem runCore_mismatch (H : String → String) {g : Graph} {act msg : String} {b : Nat}
    {vs : List ℚ} {us : List Node}
    (h2 : ¬ (resolveInputs g (Node.uri act)).length < 2)
    (hr : readLoop g (resolveInputs g (Node.uri act)) [] [] = .ok (vs, us))
    (hu : 1 < us.length) :
    runCore H (some g) act msg b =
      (.unitMismatch,
        _add_error g (some (Node.uri act))
          ("Inputs have different units: " ++ joinUnits us)
          (some "UNIT_MISMATCH")
          (create_execution_hash H act ((resolveInputs g (Node.uri act)).map nodeToStr)) b) := by
  simp only [runCore]
  rw [if_neg h2, hr]
  simp only [if_pos hu]

theorem runCore_success (H : String → String) {g : Graph} {act msg : String} {b : Nat}
    {vs : List ℚ} {us : List Node}
    (h2 : ¬ (resolveInputs g (Node.uri act)).length < 2)
    (hr : readLoop g (resolveInputs g (Node.uri act)) [] [] = .ok (vs, us))
    (hu : ¬ 1 < us.length) :
    runCore H (some g) act msg b =
      (.success,
        (resolveInputs g (Node.uri act)).foldl
          (fun g2 qv =>
            g2.addT (create_deterministic_iri "sumResult"
              (create_execution_hash H act ((resolveInputs g (Node.uri act)).map nodeToStr)),
              prov_wasDerivedFrom, qv))
          (((((cleanup_previous_result g
                  (create_deterministic_iri "sumResult"
                    (create_execution_hash H act
                      ((resolveInputs g (Node.uri act)).map nodeToStr)))).1.addT
              (create_deterministic_iri "sumResult"
                  (create_execution_hash H act ((resolveInputs g (Node.uri act)).map nodeToStr)),
                rdf_type, qudt_QuantityValue)).addT
              (create_deterministic_iri "sumResult"
                  (create_execution_hash H act ((resolveInputs g (Node.uri act)).map nodeToStr)),
                qudt_numericValue, Node.litNum (vs.foldl (· + ·) 0))).addT
              (create_deterministic_iri "sumResult"
                  (create_execution_hash H act ((resolveInputs g (Node.uri act)).map nodeToStr)),
                qudt_unit, us.headD unit_MilliM)).addT
              (create_deterministic_iri "sumResult"
                  (create_execution_hash H act ((resolveInputs g (Node.uri act)).map nodeToStr)),
                prov_wasGeneratedBy, Node.uri act))) := by
  simp only [runCore]
  rw [if_neg h2, hr]
  simp only [if_neg hu]
  cases us with
  | nil => rfl
  | cons u t => rfl

/-! ### Projection forms of the branch lemmas (keep rewriting cheap) -/

theorem runCore_too_few_fst (H : String → String) {g : Graph} {act msg : String} {b : Nat}
    (h2 : (resolveInputs g (Node.uri act)).length < 2) :
    (runCore H (some g) act msg b).1 = .inputTooFew := by
  rw [runCore_too_few H h2]

theorem runCore_too_few_snd (H : String → String) {g : Graph} {act msg : String} {b : Nat}
    (h2 : (resolveInputs g (Node.uri act)).length < 2) :
    (runCore H (some g) act msg b).2 =
      _add_error g (some (Node.uri act))
        ("Expected at least two qudt:QuantityValue inputs linked via bfo:is_input_of. Found "
          ++ Nat.repr (resolveInputs g (Node.uri act)).length)
        (some "INPUT_TOO_FEW")
        (create_execution_hash H act ((resolveInputs g (Node.uri act)).map nodeToStr)) b := by
  rw [runCore_too_few H h2]

theorem runCore_missing_snd (H : String → String) {g : Graph} {act msg : String} {b : Nat}
    {qv : Node} (h2 : ¬ (resolveInputs g (Node.uri act)).length < 2)
    (hr : readLoop g (resolveInputs g (Node.uri act)) [] [] = .error (.missingNum qv)) :
    (runCore H (some g) act msg b).2 =
      _add_error g (some (Node.uri act))
        ("Input " ++ nodeToStr qv ++ " has no qudt:numericValue")
        (some "MISSING_NUMERIC_VALUE")
        (create_execution_hash H act ((resolveInputs g (Node.uri act)).map nodeToStr)) b := by
  rw [runCore_missing H h2 hr]

theorem runCore_nonnum_snd (H : String → String) {g : Graph} {act msg : String} {b : Nat}
    {qv num : Node} (h2 : ¬ (resolveInputs g (Node.uri act)).length < 2)
    (hr : readLoop g (resolveInputs g (Node.uri act)) [] [] = .error (.nonNum qv num)) :
    (runCore H (some g) act msg b).2 =
      _add_error g (some (Node.uri act))
        ("Input " ++ nodeToStr qv ++ " has non-numeric value " ++ nodeToStr num)
        (some "NON_NUMERIC_VALUE")
        (create_execution_hash H act ((resolveInputs g (Node.uri act)).map nodeToStr)) b := by
  rw [runCore_nonnum H h2 hr]

theorem runCore_mismatch_fst (H : String → String) {g : Graph} {act msg : String} {b : Nat}
    {vs : List ℚ} {us : List Node}
    (h2 : ¬ (resolveInputs g (Node.uri act)).length < 2)
    (hr : readLoop g (resolveInputs g (Node.uri act)) [] [] = .ok (vs, us))
    (hu : 1 < us.length) :
    (runCore H (some g) act msg b).1 = .unitMismatch := by
  rw [runCore_mismatch H h2 hr hu]

theorem runCore_mismatch_snd (H : String → String) {g : Graph} {act msg : String} {b : Nat}
    {vs : List ℚ} {us : List Node}
    (h2 : ¬ (resolveInputs g (Node.uri act)).length < 2)
    (hr : readLoop g (resolveInputs g (Node.uri act)) [] [] = .ok (vs, us))
    (hu : 1 < us.length) :
    (runCore H (some g) act msg b).2 =
      _add_error g (some (Node.uri act))
        ("Inputs have different units: " ++ joinUnits us)
        (some "UNIT_MISMATCH")
        (create_execution_hash H act ((resolveInputs g (Node.uri act)).map nodeToStr)) b := by
  rw [runCore_mismatch H h2 hr hu]

theorem runCore_parse_fst (H : String → String) (act msg : String) (b : Nat) :
    (runCore H none act msg b).1 = .parseError := rfl

theorem runCore_parse_snd (H : String → String) (act msg : String) (b : Nat) :
    (runCore H none act msg b).2 =
      _add_error [] none ("Failed to parse input graph: " ++ msg)
        (some "PARSE_ERROR") "unknown" b := rfl

theorem runCore_missing_fst (H : String → String) {g : Graph} {act msg : String} {b : Nat}
    {qv : Node} (h2 : ¬ (resolveInputs g (Node.uri act)).length < 2)
    (hr : readLoop g (resolveInputs g (Node.uri act)) [] [] = .error (.missingNum qv)) :
    (runCore H (some g) act msg b).1 = .missingNumericValue := by
  rw [runCore_missing H h2 hr]

theorem runCore_nonnum_fst (H : String → String) {g : Graph} {act msg : String} {b : Nat}
    {qv num : Node} (h2 : ¬ (resolveInputs g (Node.uri act)).length < 2)
    (hr : readLoop g (resolveInputs g (Node.uri act)) [] [] = .error (.nonNum qv num)) :
    (runCore H (some g) act msg b).1 = .nonNumericValue := by
  rw [runCore_nonnum H h2 hr]

theorem runCore_success_fst (H : String → String) {g : Graph} {act msg : String} {b : Nat}
    {vs : List ℚ} {us : List Node}
    (h2 : ¬ (resolveInputs g (Node.uri act)).length < 2)
    (hr : readLoop g (resolveInputs g (Node.uri act)) [] [] = .ok (vs, us))
    (hu : ¬ 1 < us.length) :
    (runCore H (some g) act msg b).1 = .success := by
  rw [runCore_success H h2 hr hu]

/-! ## Small `addT` corollaries -/

theorem addT_mono {g : Graph} {t u : Triple} (h : t ∈ g) : t ∈ g.addT u :=
  mem_addT.mpr (Or.inl h)

theorem mem_addT_self {g : Graph} {u : Triple} : u ∈ g.addT u :=
  mem_addT.mpr (Or.inr rfl)

/-! ## Congruence lemmas: adding a non-QuantityValue input triple -/

theorem value_addT_ne {g : Graph} {t : Triple} {s p : Node} (hp : t.2.1 ≠ p) :
    (g.addT t).value s p = g.value s p := by
  unfold Graph.addT Graph.value
  by_cases hm : t ∈ g
  · rw [if_pos hm]
  · rw [if_neg hm, List.find?_append]
    have hnone : List.find? (fun u => decide (u.1 = s) && decide (u.2.1 = p)) [t] = none := by
      simp [List.find?, hp]
    cases hf : g.find? (fun u => decide (u.1 = s) && decide (u.2.1 = p)) with
    | none => simp [hf, hnone]
    | some u => simp [hf]

theorem subjects_addT_match {g : Graph} {n p o : Node} (hm : (n, p, o) ∉ g) :
    (g.addT (n, p, o)).subjects p o = g.subjects p o ++ [n] := by
  unfold Graph.addT Graph.subjects
  rw [if_neg hm, List.filter_append, List.map_append]
  simp

theorem resolveInputs_addT {g : Graph} {n act : Node}
    (hn : (n, rdf_type, qudt_QuantityValue) ∉ g) :
    resolveInputs (g.addT (n, bfo_is_input_of, act)) act = resolveInputs g act := by
  by_cases hm : (n, bfo_is_input_of, act) ∈ g
  · unfold Graph.addT
    rw [if_pos hm]
  · unfold resolveInputs
    rw [subjects_addT_match hm, List.filter_append]
    have htype : ∀ qv : Node,
        ((qv, rdf_type, qudt_QuantityValue) ∈ g.addT (n, bfo_is_input_of, act)) ↔
          ((qv, rdf_type, qudt_QuantityValue) ∈ g) := by
      intro qv
      rw [mem_addT]
      constructor
      · rintro (h | h)
        · exact h
        · exfalso
          have hcomp : rdf_type = bfo_is_input_of := congrArg (fun t : Triple => t.2.1) h
          exact absurd hcomp (by decide)
      · exact Or.inl
    have hfilter : ∀ l : List Node,
        List.filter
          (fun qv => decide ((qv, rdf_type, qudt_QuantityValue) ∈ g.addT (n, bfo_is_input_of, act))) l
          = List.filter (fun qv => decide ((qv, rdf_type, qudt_QuantityValue) ∈ g)) l := by
      intro l
      apply List.filter_congr
      intro x _
      rw [decide_eq_decide]
      exact htype x
    rw [hfilter, hfilter]
    have hone : List.filter (fun qv => decide ((qv, rdf_type, qudt_QuantityValue) ∈ g)) [n]
        = [] := by
      simp [hn]
    rw [hone, List.append_nil]

theorem readLoop_addT {g : Graph} {t : Triple} (h1 : t.2.1 ≠ qudt_numericValue)
    (h2 : t.2.1 ≠ qudt_unit) :
    ∀ (l : List Node) (vs : List ℚ) (us : List Node),
      readLoop (g.addT t) l vs us = readLoop g l vs us
  | [], _, _ => rfl
  | qv :: rest, vs, us => by
    unfold readLoop
    rw [value_addT_ne h1, value_addT_ne h2]
    cases hnum : g.value qv qudt_numericValue with
    | none => rfl
    | some num =>
      simp only []
      cases htr : toRat num with
      | none => rfl
      | some v =>
        simp only []
        cases huv : g.value qv qudt_unit with
        | none => exact readLoop_addT h1 h2 rest (vs ++ [v]) us
        | some u => exact readLoop_addT h1 h2 rest (vs ++ [v]) (addUnit us u)

/-! ## Error branches write no result-entity triple -/

theorem add_error_no_result {g : Graph} {act : Option Node} {msg : String}
    {code : Option String} {h : String} {b : Nat} {p o : Node}
    (hmem : (create_deterministic_iri "sumResult" h, p, o) ∈ _add_error g act msg code h b) :
    (create_deterministic_iri "sumResult" h, p, o) ∈ g := by
  rcases add_error_subset hmem with h1 | h1 | h1
  · exact h1
  · exact absurd h1 (sumResult_ne_errorAnn h)
  · exact absurd h1 (cdi_ne_bnode "sumResult" h b)

/-! ## `runCore` exit only depends on inputs and read values -/

theorem runCore_exit_congr (H : String → String) {g g' : Graph} {act msg : String} {b : Nat}
    (hi : resolveInputs g' (Node.uri act) = resolveInputs g (Node.uri act))
    (hrl : readLoop g' (resolveInputs g' (Node.uri act)) [] []
      = readLoop g (resolveInputs g (Node.uri act)) [] []) :
    (runCore H (some g') act msg b).1 = (runCore H (some g) act msg b).1 := by
  by_cases h2 : (resolveInputs g (Node.uri act)).length < 2
  · have h2' : (resolveInputs g' (Node.uri act)).length < 2 := by rw [hi]; exact h2
    rw [runCore_too_few H h2', runCore_too_few H h2]
  · have h2' : ¬ (resolveInputs g' (Node.uri act)).length < 2 := by rw [hi]; exact h2
    cases hr : readLoop g (resolveInputs g (Node.uri act)) [] [] with
    | error e =>
      have hr' : readLoop g' (resolveInputs g' (Node.uri act)) [] [] = .error e := by
        rw [hrl, hr]
      cases e with
      | missingNum qv => rw [runCore_missing H h2' hr', runCore_missing H h2 hr]
      | nonNum qv num => rw [runCore_nonnum H h2' hr', runCore_nonnum H h2 hr]
    | ok p =>
      obtain ⟨vs, us⟩ := p
      have hr' : readLoop g' (resolveInputs g' (Node.uri act)) [] [] = .ok (vs, us) := by
        rw [hrl, hr]
      by_cases hu : 1 < us.length
      · rw [runCore_mismatch H h2' hr' hu, runCore_mismatch H h2 hr hu]
      · rw [runCore_success H h2' hr' hu, runCore_success H h2 hr hu]

/-! ## Success-graph memberships -/

theorem success_graph_mems (H : String → String) {g : Graph} {act msg : String} {b : Nat}
    {vs : List ℚ} {us : List Node}
    (h2 : ¬ (resolveInputs g (Node.uri act)).length < 2)
    (hr : readLoop g (resolveInputs g (Node.uri act)) [] [] = .ok (vs, us))
    (hu : ¬ 1 < us.length) :
    (create_deterministic_iri "sumResult"
        (create_execution_hash H act ((resolveInputs g (Node.uri act)).map nodeToStr)),
      rdf_type, qudt_QuantityValue) ∈ (runCore H (some g) act msg b).2
    ∧ (create_deterministic_iri "sumResult"
        (create_execution_hash H act ((resolveInputs g (Node.uri act)).map nodeToStr)),
      qudt_numericValue, Node.litNum (vs.foldl (· + ·) 0)) ∈ (runCore H (some g) act msg b).2
    ∧ (create_deterministic_iri "sumResult"
        (create_execution_hash H act ((resolveInputs g (Node.uri act)).map nodeToStr)),
      qudt_unit, us.headD unit_MilliM) ∈ (runCore H (some g) act msg b).2
    ∧ (create_deterministic_iri "sumResult"
        (create_execution_hash H act ((resolveInputs g (Node.uri act)).map nodeToStr)),
      prov_wasGeneratedBy, Node.uri act) ∈ (runCore H (some g) act msg b).2
    ∧ ∀ qv ∈ resolveInputs g (Node.uri act),
        (create_deterministic_iri "sumResult"
            (create_execution_hash H act ((resolveInputs g (Node.uri act)).map nodeToStr)),
          prov_wasDerivedFrom, qv) ∈ (runCore H (some g) act msg b).2 := by
  rw [runCore_success H h2 hr hu]
  refine ⟨?_, ?_, ?_, ?_, ?_⟩
  · exact mem_foldl_addT_derived.mpr
      (Or.inl (addT_mono (addT_mono (addT_mono mem_addT_self))))
  · exact mem_foldl_addT_derived.mpr (Or.inl (addT_mono (addT_mono mem_addT_self)))
  · exact mem_foldl_addT_derived.mpr (Or.inl (addT_mono mem_addT_self))
  · exact mem_foldl_addT_derived.mpr (Or.inl mem_addT_self)
  · intro qv hqv
    exact mem_foldl_addT_derived.mpr (Or.inr ⟨qv, hqv, rfl⟩)

/-! ## Claims -/

/-- C1 (counterexample): two invocations with the same activity `A` but
distinct input sets — `{"bc"}` versus `{"b", "c"}` — produce the very same
pre-hash combined string `"Abc"`, hence the same execution identity (shown
here for the identity hash stand-in) and the same derived entity
identifier.  This refutes the claim that no two distinct
(activity, input-set) pairs map to the same pre-hash combined string. -/
theorem C1_counterexample :
    combined_string "A" ["bc"] = combined_string "A" ["b", "c"]
    ∧ ("bc" ∈ (["bc"] : List String) ∧ "bc" ∉ (["b", "c"] : List String))
    ∧ create_execution_hash id "A" ["bc"] = create_execution_hash id "A" ["b", "c"]
    ∧ create_deterministic_iri "sumResult" (create_execution_hash id "A" ["bc"])
      = create_deterministic_iri "sumResult" (create_execution_hash id "A" ["b", "c"]) := by
  decide

/-- C1 (amended): the pre-hash combined string separates
(activity, input-set) pairs only under uniform identifier lengths: if the
two activity identifiers have equal length and all input identifiers share
one common positive length, then differing in activity or in input set
forces different combined strings, and (for an injective abstraction of
the hash) different execution identities.  Without the length conditions
the separation fails (see the counterexample). -/
theorem C1_theorem {L : Nat} (hL : 0 < L) {a1 a2 : String} (hlen : a1.length = a2.length)
    {xs1 xs2 : List String} (h1 : ∀ x ∈ xs1, x.length = L) (h2 : ∀ x ∈ xs2, x.length = L)
    (hne : a1 ≠ a2 ∨ ¬(∀ x, x ∈ xs1 ↔ x ∈ xs2)) :
    combined_string a1 xs1 ≠ combined_string a2 xs2
    ∧ ∀ H : String → String, Function.Injective H →
        create_execution_hash H a1 xs1 ≠ create_execution_hash H a2 xs2 := by
  have hc : combined_string a1 xs1 ≠ combined_string a2 xs2 := by
    intro heq
    obtain ⟨ha, hmem⟩ := combined_string_inj hL hlen h1 h2 heq
    rcases hne with hne | hne
    · exact hne ha
    · exact hne hmem
  refine ⟨hc, ?_⟩
  intro H hH heq
  exact hc (hH heq)

/-- C1 witness: the amended theorem applied at a concrete instance
(`a`, `{"x"}` versus `a`, `{"y"}`, all identifiers of length 1). -/
theorem C1_witness :
    combined_string "a" ["x"] ≠ combined_string "a" ["y"] :=
  (C1_theorem (L := 1) Nat.one_pos rfl (by decide) (by decide)
    (Or.inr (fun hall => by
      have hx : ("x" : String) ∈ (["y"] : List String) := (hall "x").mp (by decide)
      exact absurd hx (by decide)))).1

/-- C2 (counterexample): `_add_error` performs no Mutation-Guard deletion.
A triple already present with the error-annotation identifier as subject
survives the call, and running the same error emission twice (the body
blank node being fresh each time) leaves two `oa:hasBody` triples for one
annotation identifier — not exactly one copy. -/
theorem C2_counterexample :
    (Node.uri "#errorAnn_h", Node.uri "p", Node.uri "o") ∈
      _add_error [(Node.uri "#errorAnn_h", Node.uri "p", Node.uri "o")]
        (some (Node.uri "A")) "m" (some "INPUT_TOO_FEW") "h" 0
    ∧ (Node.uri "#errorAnn_h", oa_hasBody, Node.bnode 0) ∈
        _add_error (_add_error [] (some (Node.uri "A")) "m" (some "INPUT_TOO_FEW") "h" 0)
          (some (Node.uri "A")) "m" (some "INPUT_TOO_FEW") "h" 1
    ∧ (Node.uri "#errorAnn_h", oa_hasBody, Node.bnode 1) ∈
        _add_error (_add_error [] (some (Node.uri "A")) "m" (some "INPUT_TOO_FEW") "h" 0)
          (some (Node.uri "A")) "m" (some "INPUT_TOO_FEW") "h" 1 := by
  decide

/-- C2 (amended): `_add_error` is purely additive.  It deletes nothing —
every triple already in the graph (in particular any triple with the
derived annotation identifier as subject or object) is still there
afterwards — and it asserts the annotation triples at the derived
identifier with the freshly allocated body node.  Consequently a re-run
with identical inputs adds a second body for the same annotation
identifier instead of leaving exactly one current copy. -/
theorem C2_theorem (g : Graph) (act : Option Node) (msg : String) (code : Option String)
    (h : String) (b : Nat) :
    (∀ t ∈ g, t ∈ _add_error g act msg code h b)
    ∧ (create_deterministic_iri "errorAnn" h, rdf_type, oa_AnnCls)
        ∈ _add_error g act msg code h b
    ∧ (create_deterministic_iri "errorAnn" h, oa_hasBody, Node.bnode b)
        ∈ _add_error g act msg code h b :=
  ⟨fun _ ht => add_error_mono ht, add_error_ann_mem, add_error_hasBody_mem⟩

/-- C2 witness: the amended theorem applied to a one-triple graph. -/
theorem C2_witness :
    (Node.uri "s", Node.uri "p", Node.uri "o") ∈
      _add_error [(Node.uri "s", Node.uri "p", Node.uri "o")] none "m" none "h" 3 :=
  (C2_theorem [(Node.uri "s", Node.uri "p", Node.uri "o")] none "m" none "h" 3).1
    (Node.uri "s", Node.uri "p", Node.uri "o") (by decide)

/-- C3 (counterexample): on the one-statement graph `{(r, p, r)}` whose
single statement carries the identifier both as subject and as object,
`cleanup_previous_result` removes that one statement but returns 2 — the
return value is not the count of statements removed. -/
theorem C3_counterexample :
    (cleanup_previous_result [(Node.uri "r", Node.uri "p", Node.uri "r")] (Node.uri "r")).2 = 2
    ∧ (cleanup_previous_result [(Node.uri "r", Node.uri "p", Node.uri "r")] (Node.uri "r")).1 = []
    ∧ ([(Node.uri "r", Node.uri "p", Node.uri "r")] : Graph).length
        - ((cleanup_previous_result [(Node.uri "r", Node.uri "p", Node.uri "r")]
            (Node.uri "r")).1).length = 1 := by
  decide

/-- C3 (amended): `cleanup_previous_result` removes exactly the statements
in which the identifier appears as subject or as object, and is a no-op
returning zero when there are none; but its return value is the number of
subject matches plus the number of object matches, which double-counts a
statement whose subject and object are both the identifier, so it can
exceed the number of statements actually removed. -/
theorem C3_theorem (g : Graph) (eid : Node) :
    (∀ t : Triple,
      t ∈ (cleanup_previous_result g eid).1 ↔ (t ∈ g ∧ ¬(t.1 = eid ∨ t.2.2 = eid)))
    ∧ (cleanup_previous_result g eid).2
        = (g.triplesS eid).length + (g.triplesO eid).length
    ∧ ((∀ t ∈ g, ¬(t.1 = eid ∨ t.2.2 = eid)) → cleanup_previous_result g eid = (g, 0)) := by
  refine ⟨fun t => cleanup_mem, cleanup_count, ?_⟩
  intro hnone
  have hs : g.triplesS eid = [] := by
    simp only [Graph.triplesS, List.filter_eq_nil_iff, decide_eq_true_eq]
    intro a ha h1
    exact hnone a ha (Or.inl h1)
  have ho : g.triplesO eid = [] := by
    simp only [Graph.triplesO, List.filter_eq_nil_iff, decide_eq_true_eq]
    intro a ha h1
    exact hnone a ha (Or.inr h1)
  show ((g.triplesS eid ++ g.triplesO eid).foldl Graph.removeT g,
    (g.triplesS eid ++ g.triplesO eid).length) = (g, 0)
  rw [hs, ho]
  rfl

/-- C3 witness: the amended theorem applied to a graph not mentioning the
identifier, giving the no-op result. -/
theorem C3_witness :
    cleanup_previous_result [(Node.uri "a", Node.uri "p", Node.uri "b")] (Node.uri "x")
      = ([(Node.uri "a", Node.uri "p", Node.uri "b")], 0) :=
  (C3_theorem [(Node.uri "a", Node.uri "p", Node.uri "b")] (Node.uri "x")).2.2 (by decide)

/-- C4: when fewer than 2 qualifying inputs are found, `run` exits with an
INPUT_TOO_FEW error annotation whose identifier is derived from the
execution hash of the inputs that were discovered, and adds no triple at
the would-be result identifier; with exactly 2 qualifying inputs that
otherwise validate (values read successfully, at most one distinct unit)
it succeeds. -/
theorem C4_theorem (H : String → String) (g : Graph) (act msg : String) (b : Nat) :
    ((resolveInputs g (Node.uri act)).length < 2 →
      (runCore H (some g) act msg b).1 = .inputTooFew
      ∧ (create_deterministic_iri "errorAnn"
            (create_execution_hash H act ((resolveInputs g (Node.uri act)).map nodeToStr)),
          rdf_type, oa_AnnCls) ∈ (runCore H (some g) act msg b).2
      ∧ (Node.bnode b, ex_errorCode, Node.litStr "INPUT_TOO_FEW")
          ∈ (runCore H (some g) act msg b).2
      ∧ ∀ p o : Node,
          (create_deterministic_iri "sumResult"
              (create_execution_hash H act ((resolveInputs g (Node.uri act)).map nodeToStr)),
            p, o) ∈ (runCore H (some g) act msg b).2 →
          (create_deterministic_iri "sumResult"
              (create_execution_hash H act ((resolveInputs g (Node.uri act)).map nodeToStr)),
            p, o) ∈ g)
    ∧ ((resolveInputs g (Node.uri act)).length = 2 →
        ∀ (vs : List ℚ) (us : List Node),
          readLoop g (resolveInputs g (Node.uri act)) [] [] = .ok (vs, us) →
          us.length ≤ 1 →
          (runCore H (some g) act msg b).1 = .success) := by
  constructor
  · intro h2
    refine ⟨runCore_too_few_fst H h2, ?_, ?_, ?_⟩
    · rw [runCore_too_few_snd H h2]
      exact add_error_ann_mem
    · rw [runCore_too_few_snd H h2]
      exact add_error_code_mem
    · intro p o
      rw [runCore_too_few_snd H h2]
      exact add_error_no_result
  · intro hlen vs us hr hu
    have h2 : ¬ (resolveInputs g (Node.uri act)).length < 2 := by omega
    have hu' : ¬ 1 < us.length := by omega
    exact runCore_success_fst H h2 hr hu'

/-- C4 witness: one qualifying input gives INPUT_TOO_FEW (with the code
triple present); the two-input fixture succeeds. -/
theorem C4_witness :
    (runCore id (some exGraphOne) "A" "" 0).1 = .inputTooFew
    ∧ (Node.bnode 0, ex_errorCode, Node.litStr "INPUT_TOO_FEW")
        ∈ (runCore id (some exGraphOne) "A" "" 0).2
    ∧ (runCore id (some exGraphTwo) "A" "" 0).1 = .success :=
  ⟨((C4_theorem id exGraphOne "A" "" 0).1 (by decide)).1,
   ((C4_theorem id exGraphOne "A" "" 0).1 (by decide)).2.2.1,
   (C4_theorem id exGraphTwo "A" "" 0).2 (by decide) [2, 4] [unit_MilliM] rfl (by decide)⟩

/-- C5: over a validated input set, more than one distinct declared unit
yields a UNIT_MISMATCH error annotation and no result-entity triple; a
single distinct unit is used on the result entity; with no declared unit
the configured default `unit:MilliM` is used. -/
theorem C5_theorem (H : String → String) (g : Graph) (act msg : String) (b : Nat)
    (vs : List ℚ) (us : List Node)
    (h2 : ¬ (resolveInputs g (Node.uri act)).length < 2)
    (hr : readLoop g (resolveInputs g (Node.uri act)) [] [] = .ok (vs, us)) :
    (1 < us.length →
      (runCore H (some g) act msg b).1 = .unitMismatch
      ∧ (Node.bnode b, ex_errorCode, Node.litStr "UNIT_MISMATCH")
          ∈ (runCore H (some g) act msg b).2
      ∧ ∀ p o : Node,
          (create_deterministic_iri "sumResult"
              (create_execution_hash H act ((resolveInputs g (Node.uri act)).map nodeToStr)),
            p, o) ∈ (runCore H (some g) act msg b).2 →
          (create_deterministic_iri "sumResult"
              (create_execution_hash H act ((resolveInputs g (Node.uri act)).map nodeToStr)),
            p, o) ∈ g)
    ∧ (∀ u, us = [u] →
        (runCore H (some g) act msg b).1 = .success
        ∧ (create_deterministic_iri "sumResult"
              (create_execution_hash H act ((resolveInputs g (Node.uri act)).map nodeToStr)),
            qudt_unit, u) ∈ (runCore H (some g) act msg b).2)
    ∧ (us = [] →
        (runCore H (some g) act msg b).1 = .success
        ∧ (create_deterministic_iri "sumResult"
              (create_execution_hash H act ((resolveInputs g (Node.uri act)).map nodeToStr)),
            qudt_unit, unit_MilliM) ∈ (runCore H (some g) act msg b).2) := by
  refine ⟨?_, ?_, ?_⟩
  · intro hu
    refine ⟨runCore_mismatch_fst H h2 hr hu, ?_, ?_⟩
    · rw [runCore_mismatch_snd H h2 hr hu]
      exact add_error_code_mem
    · intro p o
      rw [runCore_mismatch_snd H h2 hr hu]
      exact add_error_no_result
  · rintro u rfl
    have hu' : ¬ 1 < ([u] : List Node).length := by simp
    exact ⟨runCore_success_fst H h2 hr hu', (success_graph_mems H h2 hr hu').2.2.1⟩
  · rintro rfl
    have hu' : ¬ 1 < ([] : List Node).length := by simp
    exact ⟨runCore_success_fst H h2 hr hu', (success_graph_mems H h2 hr hu').2.2.1⟩

/-- C5 witness: mismatching units error out; a single shared unit is used
on the result; a unit-less input set falls back to `unit:MilliM`. -/
theorem C5_witness :
    (runCore id (some exGraphMismatch) "A" "" 0).1 = .unitMismatch
    ∧ (runCore id (some exGraphTwo) "A" "" 0).1 = .success
    ∧ (create_deterministic_iri "sumResult"
          (create_execution_hash id "A" ((resolveInputs exGraphTwo (Node.uri "A")).map nodeToStr)),
        qudt_unit, unit_MilliM) ∈ (runCore id (some exGraphTwo) "A" "" 0).2
    ∧ (runCore id (some exGraphNoUnit) "A" "" 0).1 = .success
    ∧ (create_deterministic_iri "sumResult"
          (create_execution_hash id "A" ((resolveInputs exGraphNoUnit (Node.uri "A")).map nodeToStr)),
        qudt_unit, unit_MilliM) ∈ (runCore id (some exGraphNoUnit) "A" "" 0).2 :=
  ⟨((C5_theorem id exGraphMismatch "A" "" 0 [2, 4]
      [unit_MilliM, Node.uri "http://qudt.org/vocab/unit/U2"] (by decide) rfl).1 (by decide)).1,
   ((C5_theorem id exGraphTwo "A" "" 0 [2, 4] [unit_MilliM] (by decide) rfl).2.1
      unit_MilliM rfl).1,
   ((C5_theorem id exGraphTwo "A" "" 0 [2, 4] [unit_MilliM] (by decide) rfl).2.1
      unit_MilliM rfl).2,
   ((C5_theorem id exGraphNoUnit "A" "" 0 [2, 4] [] (by decide) rfl).2.2 rfl).1,
   ((C5_theorem id exGraphNoUnit "A" "" 0 [2, 4] [] (by decide) rfl).2.2 rfl).2⟩

/-- C6: on the success path the result entity at `#sumResult_{hash}` is
typed `qudt:QuantityValue`, carries the sum of the validated values as its
numeric value, the resolved unit (head of the unit set, default MilliM),
one generated-by edge to the activity, and one derived-from edge per
qualifying input. -/
theorem C6_theorem (H : String → String) (g : Graph) (act msg : String) (b : Nat)
    (vs : List ℚ) (us : List Node)
    (h2 : ¬ (resolveInputs g (Node.uri act)).length < 2)
    (hr : readLoop g (resolveInputs g (Node.uri act)) [] [] = .ok (vs, us))
    (hu : us.length ≤ 1) :
    (runCore H (some g) act msg b).1 = .success
    ∧ (create_deterministic_iri "sumResult"
          (create_execution_hash H act ((resolveInputs g (Node.uri act)).map nodeToStr)),
        rdf_type, qudt_QuantityValue) ∈ (runCore H (some g) act msg b).2
    ∧ (create_deterministic_iri "sumResult"
          (create_execution_hash H act ((resolveInputs g (Node.uri act)).map nodeToStr)),
        qudt_numericValue, Node.litNum (vs.foldl (· + ·) 0)) ∈ (runCore H (some g) act msg b).2
    ∧ (create_deterministic_iri "sumResult"
          (create_execution_hash H act ((resolveInputs g (Node.uri act)).map nodeToStr)),
        qudt_unit, us.headD unit_MilliM) ∈ (runCore H (some g) act msg b).2
    ∧ (create_deterministic_iri "sumResult"
          (create_execution_hash H act ((resolveInputs g (Node.uri act)).map nodeToStr)),
        prov_wasGeneratedBy, Node.uri act) ∈ (runCore H (some g) act msg b).2
    ∧ ∀ qv ∈ resolveInputs g (Node.uri act),
        (create_deterministic_iri "sumResult"
            (create_execution_hash H act ((resolveInputs g (Node.uri act)).map nodeToStr)),
          prov_wasDerivedFrom, qv) ∈ (runCore H (some g) act msg b).2 := by
  have hu' : ¬ 1 < us.length := by omega
  obtain ⟨m1, m2, m3, m4, m5⟩ := success_graph_mems H h2 hr hu'
  exact ⟨runCore_success_fst H h2 hr hu', m1, m2, m3, m4, m5⟩

/-- C6 witness: the spec's worked example — inputs 2.5 and 3.5 with unit
MilliM give a result entity with numeric value 6 and unit MilliM. -/
theorem C6_witness :
    (runCore id (some exGraphHalves) "A" "" 0).1 = .success
    ∧ (create_deterministic_iri "sumResult"
          (create_execution_hash id "A"
            ((resolveInputs exGraphHalves (Node.uri "A")).map nodeToStr)),
        qudt_numericValue, Node.litNum 6) ∈ (runCore id (some exGraphHalves) "A" "" 0).2
    ∧ (create_deterministic_iri "sumResult"
          (create_execution_hash id "A"
            ((resolveInputs exGraphHalves (Node.uri "A")).map nodeToStr)),
        qudt_unit, unit_MilliM) ∈ (runCore id (some exGraphHalves) "A" "" 0).2 := by
  have h := C6_theorem id exGraphHalves "A" "" 0 [rat25, rat35] [unit_MilliM]
    (by decide) rfl (by decide)
  have hsum : List.foldl (· + ·) (0 : ℚ) [rat25, rat35] = 6 := by
    norm_num [rat25, rat35, Rat.mk'_eq_divInt, Rat.divInt_eq_div]
  exact ⟨h.1, by rw [← hsum]; exact h.2.2.1, h.2.2.2.1⟩

/-- C7: the execution identity is invariant under permutation of the input
identifiers, and therefore so is every entity identifier derived from it. -/
theorem C7_theorem (H : String → String) (a pfx : String) {xs ys : List String}
    (hperm : xs.Perm ys) :
    create_execution_hash H a xs = create_execution_hash H a ys
    ∧ create_deterministic_iri pfx (create_execution_hash H a xs)
      = create_deterministic_iri pfx (create_execution_hash H a ys) := by
  have hc : combined_string a xs = combined_string a ys := by
    unfold combined_string
    rw [sortedStrings_eq_of_perm hperm]
  unfold create_execution_hash
  rw [hc]
  exact ⟨rfl, rfl⟩

/-- C7 witness: the theorem applied to the transposition
`["v2", "v1"] ~ ["v1", "v2"]`. -/
theorem C7_witness :
    create_execution_hash id "A" ["v2", "v1"] = create_execution_hash id "A" ["v1", "v2"]
    ∧ create_deterministic_iri "sumResult" (create_execution_hash id "A" ["v2", "v1"])
      = create_deterministic_iri "sumResult" (create_execution_hash id "A" ["v1", "v2"]) :=
  C7_theorem id "A" "sumResult" (List.Perm.swap "v1" "v2" [])

/-- C8: `run` is total — for every parse outcome, activity identifier,
message and body label it returns the serialization of the graph that
`runCore` produced — and every non-success exit records its error code as
data (an `ex:errorCode` triple on the body node) inside that graph:
failures are encoded in the returned graph, never raised to the caller. -/
theorem C8_theorem (H : String → String) (S : Graph → String) (parsed : Option Graph)
    (act msg : String) (b : Nat) :
    run H S parsed act msg b = S (runCore H parsed act msg b).2
    ∧ ((runCore H parsed act msg b).1 = .success
      ∨ ∃ c, ((runCore H parsed act msg b).1, c) ∈
          ([(RunExit.parseError, "PARSE_ERROR"),
            (RunExit.inputTooFew, "INPUT_TOO_FEW"),
            (RunExit.missingNumericValue, "MISSING_NUMERIC_VALUE"),
            (RunExit.nonNumericValue, "NON_NUMERIC_VALUE"),
            (RunExit.unitMismatch, "UNIT_MISMATCH")] : List (RunExit × String))
        ∧ (Node.bnode b, ex_errorCode, Node.litStr c) ∈ (runCore H parsed act msg b).2) := by
  refine ⟨rfl, ?_⟩
  cases parsed with
  | none =>
    refine Or.inr ⟨"PARSE_ERROR", ?_, ?_⟩
    · rw [runCore_parse_fst H act msg b]
      decide
    · rw [runCore_parse_snd H act msg b]
      exact add_error_code_mem
  | some g =>
    by_cases h2 : (resolveInputs g (Node.uri act)).length < 2
    · refine Or.inr ⟨"INPUT_TOO_FEW", ?_, ?_⟩
      · rw [runCore_too_few_fst H h2]
        decide
      · rw [runCore_too_few_snd H h2]
        exact add_error_code_mem
    · cases hr : readLoop g (resolveInputs g (Node.uri act)) [] [] with
      | error e =>
        cases e with
        | missingNum qv =>
          refine Or.inr ⟨"MISSING_NUMERIC_VALUE", ?_, ?_⟩
          · rw [runCore_missing_fst H h2 hr]
            decide
          · rw [runCore_missing_snd H h2 hr]
            exact add_error_code_mem
        | nonNum qv num =>
          refine Or.inr ⟨"NON_NUMERIC_VALUE", ?_, ?_⟩
          · rw [runCore_nonnum_fst H h2 hr]
            decide
          · rw [runCore_nonnum_snd H h2 hr]
            exact add_error_code_mem
      | ok p =>
        obtain ⟨vs, us⟩ := p
        by_cases hu : 1 < us.length
        · refine Or.inr ⟨"UNIT_MISMATCH", ?_, ?_⟩
          · rw [runCore_mismatch_fst H h2 hr hu]
            decide
          · rw [runCore_mismatch_snd H h2 hr hu]
            exact add_error_code_mem
        · exact Or.inl (runCore_success_fst H h2 hr hu)

/-- C9: on a parse failure the fallback execution identity is the literal
string `"unknown"`: the error annotation is written at exactly the
identifier `#errorAnn_unknown`, for every hash function, activity
identifier and exception message alike — every triple the failure graph
holds has the annotation identifier or its body node as subject. -/
theorem C9_theorem (H : String → String) (act msg : String) (b : Nat) :
    (runCore H none act msg b).1 = .parseError
    ∧ (Node.uri "#errorAnn_unknown", rdf_type, oa_AnnCls) ∈ (runCore H none act msg b).2
    ∧ (Node.uri "#errorAnn_unknown", oa_hasBody, Node.bnode b) ∈ (runCore H none act msg b).2
    ∧ ∀ t ∈ (runCore H none act msg b).2,
        t.1 = Node.uri "#errorAnn_unknown" ∨ t.1 = Node.bnode b := by
  have hiri : create_deterministic_iri "errorAnn" "unknown" = Node.uri "#errorAnn_unknown" := by
    decide
  refine ⟨rfl, ?_, ?_, ?_⟩
  · rw [runCore_parse_snd H act msg b, ← hiri]
    exact add_error_ann_mem
  · rw [runCore_parse_snd H act msg b, ← hiri]
    exact add_error_hasBody_mem
  · intro t ht
    rw [runCore_parse_snd H act msg b] at ht
    rcases add_error_subset ht with h1 | h1 | h1
    · exact absurd h1 (List.not_mem_nil t)
    · rw [hiri] at h1
      exact Or.inl h1
    · exact Or.inr h1

/-- C9 witness: the theorem applied at a concrete parse failure. -/
theorem C9_witness :
    (runCore id none "A" "boom" 5).1 = .parseError
    ∧ (Node.uri "#errorAnn_unknown", rdf_type, oa_AnnCls) ∈ (runCore id none "A" "boom" 5).2
    ∧ ((Node.uri "#errorAnn_unknown", oa_motivatedBy, ex_errorReporting).1
          = Node.uri "#errorAnn_unknown"
        ∨ (Node.uri "#errorAnn_unknown", oa_motivatedBy, ex_errorReporting).1 = Node.bnode 5) :=
  ⟨(C9_theorem id "A" "boom" 5).1, (C9_theorem id "A" "boom" 5).2.1,
   (C9_theorem id "A" "boom" 5).2.2.2
     (Node.uri "#errorAnn_unknown", oa_motivatedBy, ex_errorReporting) (by decide)⟩

/-- C10: a node linked to the activity by `bfo:is_input_of` but not typed
`qudt:QuantityValue` is invisible: adding its is-input-of triple changes
neither the resolved input list, nor the execution identity, nor the exit
(success/error outcome) of `run` — a two-run noninterference statement. -/
theorem C10_theorem (H : String → String) (g : Graph) (act msg : String) (b : Nat)
    (n : Node) (hn : (n, rdf_type, qudt_QuantityValue) ∉ g) :
    resolveInputs (g.addT (n, bfo_is_input_of, Node.uri act)) (Node.uri act)
      = resolveInputs g (Node.uri act)
    ∧ create_execution_hash H act
        ((resolveInputs (g.addT (n, bfo_is_input_of, Node.uri act)) (Node.uri act)).map nodeToStr)
      = create_execution_hash H act ((resolveInputs g (Node.uri act)).map nodeToStr)
    ∧ (runCore H (some (g.addT (n, bfo_is_input_of, Node.uri act))) act msg b).1
      = (runCore H (some g) act msg b).1 := by
  have hi : resolveInputs (g.addT (n, bfo_is_input_of, Node.uri act)) (Node.uri act)
      = resolveInputs g (Node.uri act) := resolveInputs_addT hn
  have hp1 : ((n, bfo_is_input_of, Node.uri act) : Triple).2.1 ≠ qudt_numericValue := by
    show bfo_is_input_of ≠ qudt_numericValue
    decide
  have hp2 : ((n, bfo_is_input_of, Node.uri act) : Triple).2.1 ≠ qudt_unit := by
    show bfo_is_input_of ≠ qudt_unit
    decide
  have hrl : readLoop (g.addT (n, bfo_is_input_of, Node.uri act))
      (resolveInputs (g.addT (n, bfo_is_input_of, Node.uri act)) (Node.uri act)) [] []
      = readLoop g (resolveInputs g (Node.uri act)) [] [] := by
    rw [hi]
    exact readLoop_addT hp1 hp2 (resolveInputs g (Node.uri act)) [] []
  exact ⟨hi, by rw [hi], runCore_exit_congr H hi hrl⟩

/-- C10 witness: adding an untyped node `w` as is-input-of `A` to the
two-input fixture changes neither the resolved inputs nor the exit. -/
theorem C10_witness :
    resolveInputs (exGraphTwo.addT (Node.uri "w", bfo_is_input_of, Node.uri "A")) (Node.uri "A")
      = resolveInputs exGraphTwo (Node.uri "A")
    ∧ (runCore id (some (exGraphTwo.addT (Node.uri "w", bfo_is_input_of, Node.uri "A")))
        "A" "" 0).1 = (runCore id (some exGraphTwo) "A" "" 0).1 :=
  ⟨(C10_theorem id exGraphTwo "A" "" 0 (Node.uri "w") (by decide)).1,
   (C10_theorem id exGraphTwo "A" "" 0 (Node.uri "w") (by decide)).2.2⟩
